import Mathlib

/-!
Shallow embedding of `src/model/run.py` (gulibs/runner): a CLI wrapper that
resolves a pickled model path across candidate directories, reads a CSV,
drops incomplete rows, predicts on the filtered table, and emits a one-line
JSON envelope (success on stdout / error on stderr) with exit code 0 or 2.

Modelling choices:
* `Path` objects are plain strings; `Path.joinpath` is string concatenation
  with a `/` separator.
* The per-candidate `try/except` blocks in `candidate_dirs` are modelled by
  `Option` fields: `none` means that resolution step raised and was swallowed.
  `sys._MEIPASS` absent is `none`; present-but-falsy is `some ""`.  The one
  unguarded fallible read, `Path.cwd()`, is modelled by `SysEnv` (whose
  `cwd : Option String` is `none` when `Path.cwd()` raises, e.g. the working
  directory was unlinked); `Env` is the environment once that read has
  succeeded, and `candidate_dirs_sys` / `prepare_model_path_sys` propagate the
  `Path.cwd()` exception that the source does not catch.
* The filesystem is a predicate `fs : String → Bool` (`Path.exists`).
* `pandas.read_csv` is an `Except` value in the world (it can raise); a parsed
  row is a `List (Option Int)` where `none` is a missing value (NaN), so
  `DataFrame.dropna` keeps exactly the rows whose cells are all `some`.
* `pickle.load` is an opaque `unpickle` function in the world returning
  `Except String Model`; a `Model` carries an opaque `predict` function that
  may itself raise (`Except`).
* `argparse` failure (missing positional argument) is `csvArg = none`; its
  `SystemExit` is not an `Exception`, so the outer `except Exception` does not
  convert it to a JSON envelope: the run result records `usage = true`
  (argparse usage text on stderr, no JSON) with exit code 2.
* A `RunResult` records the exit code and at most one JSON envelope per
  stream; `Envelope.ok l` stands for `{"success": true, "results": l}` and
  `Envelope.err m` for `{"success": false, "error": m, "traceback": ...}`.
-/

/-- The ambient process environment feeding `candidate_dirs`, in the runs
where the unguarded `Path.cwd()` read has succeeded:
`Path(__file__).resolve().parent`, `Path(sys.argv[0]).resolve().parent`
(each `none` when the corresponding `try` block swallowed an exception),
`sys._MEIPASS` (`none` when the attribute is absent), and the `Path.cwd()`
value.  The raw environment before the cwd read is `SysEnv` below. -/
structure Env where
  fileDir : Option String
  argv0Dir : Option String
  meipass : Option String
  cwd : String
deriving DecidableEq

/-- `Path.joinpath` on string paths. -/
def joinpath (d name : String) : String := d ++ "/" ++ name

/-- First phase of `candidate_dirs`: the script directory followed by the
argv[0] directory (deduplicated), before the `_MEIPASS` insertion. -/
def base_dirs (env : Env) : List String :=
  let dirs := match env.fileDir with
    | some d => [d]
    | none => []
  match env.argv0Dir with
  | some a => if a ∈ dirs then dirs else dirs ++ [a]
  | none => dirs

/-- The `_MEIPASS` step of `candidate_dirs`: a truthy `sys._MEIPASS` is
inserted at index 0 unless already present. -/
def with_meipass (env : Env) (dirs : List String) : List String :=
  match env.meipass with
  | some m => if m = "" then dirs else if m ∈ dirs then dirs else m :: dirs
  | none => dirs

/-- `candidate_dirs()` from run.py: script dir, argv[0] dir, `_MEIPASS`
front-inserted, then the working directory appended if not already present. -/
def candidate_dirs (env : Env) : List String :=
  let dirs := with_meipass env (base_dirs env)
  if env.cwd ∈ dirs then dirs else dirs ++ [env.cwd]

/-- Inner loop of `find_model_file`: first candidate name that exists in
directory `d`. -/
def findName (fs : String → Bool) (d : String) : List String → Option String
  | [] => none
  | n :: rest =>
    if fs (joinpath d n) then some (joinpath d n) else findName fs d rest

/-- Outer loop of `find_model_file`: directory-major search. -/
def findInDirs (fs : String → Bool) (names : List String) : List String → Option String
  | [] => none
  | d :: rest =>
    match findName fs d names with
    | some p => some p
    | none => findInDirs fs names rest

/-- `find_model_file(candidate_names)` from run.py. -/
def find_model_file (env : Env) (fs : String → Bool) (names : List String) : Option String :=
  findInDirs fs names (candidate_dirs env)

/-- The loop in `prepare_model_path` that joins the explicit cli path to each
candidate directory, appending every attempt to `tried` and stopping at the
first existing candidate.  Returns the found path (if any) and the final
`tried` list. -/
def try_cli_bases (fs : String → Bool) (cli : String) (tried : List String) :
    List String → Option String × List String
  | [] => (none, tried)
  | b :: rest =>
    let c := joinpath b cli
    if fs c then (some c, tried ++ [c]) else try_cli_bases fs cli (tried ++ [c]) rest

/-- The fixed default candidate model file names in `prepare_model_path`. -/
def default_candidates : List String := ["model/RF_binary_v1.pickle", "RF_binary_v1.pickle"]

/-- Every directory × default-name combination, in the order the final loop of
`prepare_model_path` appends them to `tried`. -/
def all_default_tries (env : Env) : List String :=
  (candidate_dirs env).flatMap (fun d => default_candidates.map (fun n => joinpath d n))

/-- `prepare_model_path(cli_model)` from run.py.  A falsy cli model (absent or
empty string) skips the explicit phase.  If the explicit path exists as given
the pair `(path, tried)` is returned; otherwise it is joined to each candidate
directory.  On fallthrough the default names are searched; a hit returns the
found path with a singleton tried list `[str(found)]`; otherwise the first
default name is returned literally together with every attempted path. -/
def prepare_model_path (env : Env) (fs : String → Bool) (cli_model : Option String) :
    String × List String :=
  let step1 : Option String × List String :=
    match cli_model with
    | some m =>
      if m = "" then (none, [])
      else if fs m then (some m, [m])
      else try_cli_bases fs m [m] (candidate_dirs env)
    | none => (none, [])
  match step1 with
  | (some p, tried) => (p, tried)
  | (none, tried) =>
    match find_model_file env fs default_candidates with
    | some found => (found, [found])
    | none => ("model/RF_binary_v1.pickle", tried ++ all_default_tries env)

/-- A deserialized model: one opaque capability, `predict`, over the filtered
feature table, returning one class code per row (or raising). -/
structure Model where
  predict : List (List (Option Int)) → Except String (List Int)

/-- One JSON line: `Envelope.ok l` is `{"success": true, "results": l}`;
`Envelope.err m` is `{"success": false, "error": m, "traceback": ...}`. -/
inductive Envelope where
  | ok (results : String)
  | err (error : String)
deriving DecidableEq

/-- Observable outcome of one process run: exit code, the JSON envelope
written to stdout (if any), the JSON envelope written to stderr (if any), and
whether argparse wrote its non-JSON usage text to stderr. -/
structure RunResult where
  exitCode : Nat
  stdout : Option Envelope
  stderr : Option Envelope
  usage : Bool
deriving DecidableEq

/-- The full state one invocation runs against. -/
structure World where
  env : Env
  fs : String → Bool
  csvArg : Option String
  modelArg : Option String
  csvRead : Except String (List (List (Option Int)))
  unpickle : String → Except String Model

/-- `df.dropna()`: keep the rows with no missing value. -/
def dropna (rows : List (List (Option Int))) : List (List (Option Int)) :=
  rows.filter (fun r => r.all (fun v => v.isSome))

/-- The label table `{0: "BPA", 1: "UPA"}`; `none` is a `KeyError`. -/
def mapping (c : Int) : Option String :=
  if c = 0 then some "BPA" else if c = 1 then some "UPA" else none

/-- Message of the `FileNotFoundError` raised when the CSV path is missing. -/
def csvNotFoundMsg (csv : String) : String := "输入 CSV 未找到: " ++ csv

/-- Message of the `FileNotFoundError` raised by `load_model_from_path`. -/
def modelNotFoundMsg (p : String) : String := "模型文件不存在: " ++ p

/-- A single quote character, as Python list repr uses around strings. -/
def pyQuote : String := String.singleton (Char.ofNat 39)

/-- Python repr of the items of a list of strings, comma separated. -/
def pyReprItems : List String → String
  | [] => ""
  | [s] => pyQuote ++ s ++ pyQuote
  | s :: rest => pyQuote ++ s ++ pyQuote ++ ", " ++ pyReprItems rest

/-- Python `str` of a list of strings, as interpolated by an f-string. -/
def pyListRepr (l : List String) : String := "[" ++ pyReprItems l ++ "]"

/-- Message of the wrapped `FileNotFoundError` raised when model loading
fails: names every attempted path plus the underlying exception text. -/
def loadFailMsg (tried : List String) (exc : String) : String :=
  "无法加载模型: attempted paths: " ++ pyListRepr tried ++ ". Exception: " ++ exc

/-- `load_model_from_path(p)` from run.py: raise `FileNotFoundError` when the
path does not exist, otherwise unpickle (which may itself raise). -/
def load_model_from_path (fs : String → Bool) (unpickle : String → Except String Model)
    (p : String) : Except String Model :=
  if fs p then unpickle p else Except.error (modelNotFoundMsg p)

/-- `main()` from run.py: argparse, CSV existence check, model path
resolution, CSV read + dropna + emptiness check, model load (wrapping any
load exception into a message carrying the tried list), predict, first class
code through the label table, then the success envelope on stdout with exit 0;
any exception becomes an error envelope on stderr with exit 2. -/
def run_main (w : World) : RunResult :=
  match w.csvArg with
  | none => ⟨2, none, none, true⟩
  | some csv =>
    if w.fs csv then
      let r := prepare_model_path w.env w.fs w.modelArg
      match w.csvRead with
      | Except.error e => ⟨2, none, some (Envelope.err e), false⟩
      | Except.ok rows =>
        let df := dropna rows
        if df.length = 0 then ⟨2, none, some (Envelope.err "No rows after dropna()"), false⟩
        else
          match load_model_from_path w.fs w.unpickle r.1 with
          | Except.error le => ⟨2, none, some (Envelope.err (loadFailMsg r.2 le)), false⟩
          | Except.ok model =>
            match model.predict df with
            | Except.error pe => ⟨2, none, some (Envelope.err pe), false⟩
            | Except.ok preds =>
              match preds.head? with
              | none =>
                ⟨2, none, some (Envelope.err "index 0 is out of bounds for axis 0 with size 0"), false⟩
              | some c =>
                match mapping c with
                | none => ⟨2, none, some (Envelope.err (Int.repr c)), false⟩
                | some label => ⟨0, some (Envelope.ok label), none, false⟩
    else ⟨2, none, some (Envelope.err (csvNotFoundMsg csv)), false⟩

/-- The raw process environment before any resolution attempt: each field is
the outcome of the corresponding fallible read.  Unlike the three guarded
reads, `Path.cwd()` at the end of `candidate_dirs` is performed outside any
`try` block, so `cwd = none` (the working directory cannot be read, e.g. it
was unlinked) makes the whole call raise instead of being swallowed. -/
structure SysEnv where
  fileDir : Option String
  argv0Dir : Option String
  meipass : Option String
  cwd : Option String
deriving DecidableEq

/-- Message of the `FileNotFoundError` that `Path.cwd()` raises when the
working directory no longer exists. -/
def cwdRaiseMsg : String := "[Errno 2] No such file or directory"

/-- The environment obtained once `Path.cwd()` returned `c`. -/
def SysEnv.resolve (e : SysEnv) (c : String) : Env :=
  ⟨e.fileDir, e.argv0Dir, e.meipass, c⟩

/-- `candidate_dirs()` on the raw environment: the three guarded reads are
swallowed per candidate, but the unguarded `Path.cwd()` makes the whole call
raise when the working directory cannot be read. -/
def candidate_dirs_sys (e : SysEnv) : Except String (List String) :=
  match e.cwd with
  | none => Except.error cwdRaiseMsg
  | some c => Except.ok (candidate_dirs (SysEnv.resolve e c))

/-- `prepare_model_path(cli_model)` on the raw environment.  The explicit
phase touches `candidate_dirs()` only after `p.exists()` fails, so a truthy
cli path that exists as given still returns `(p, tried)` untouched by the cwd
read; every other flow calls `candidate_dirs()` (directly or through
`find_model_file`) and propagates its uncaught `Path.cwd()` exception. -/
def prepare_model_path_sys (e : SysEnv) (fs : String → Bool) (cli_model : Option String) :
    Except String (String × List String) :=
  match e.cwd with
  | some c => Except.ok (prepare_model_path (SysEnv.resolve e c) fs cli_model)
  | none =>
    match cli_model with
    | some m =>
      if m = "" then Except.error cwdRaiseMsg
      else if fs m then Except.ok (m, [m])
      else Except.error cwdRaiseMsg
    | none => Except.error cwdRaiseMsg

/-- `needle` occurs verbatim inside `haystack` (substring containment, at the
character level). -/
def strIncludes (needle haystack : String) : Prop :=
  ∃ u v, u ++ needle.data ++ v = haystack.data

/-- String append concatenates the underlying character lists. -/
theorem data_append (a b : String) : (a ++ b).data = a.data ++ b.data := rfl

/-- A string is a substring of any append that contains it as a middle
factor. -/
theorem strIncludes_of_middle (q a b c : String) (h : strIncludes q b) :
    strIncludes q (a ++ b ++ c) := by
  obtain ⟨u, v, huv⟩ := h
  exact ⟨a.data ++ u, v ++ c.data, by simp [data_append, ← huv, List.append_assoc]⟩

/-- Every member of a list of strings occurs verbatim in the Python repr of
the list. -/
theorem strIncludes_pyReprItems (q : String) :
    ∀ l : List String, q ∈ l → strIncludes q (pyReprItems l)
  | [], h => absurd h (List.not_mem_nil q)
  | [s], h => by
    rcases List.mem_singleton.mp h with rfl
    exact ⟨pyQuote.data, pyQuote.data, by simp [pyReprItems, data_append]⟩
  | s :: s2 :: rest, h => by
    rcases List.mem_cons.mp h with rfl | htail
    · exact ⟨pyQuote.data, (pyQuote ++ ", " ++ pyReprItems (s2 :: rest)).data,
        by simp [pyReprItems, data_append, List.append_assoc]⟩
    · obtain ⟨u, v, huv⟩ := strIncludes_pyReprItems q (s2 :: rest) htail
      exact ⟨(pyQuote ++ s ++ pyQuote ++ ", ").data ++ u, v,
        by simp [pyReprItems, data_append, ← huv, List.append_assoc]⟩

/-- Every attempted path occurs verbatim in the load-failure message. -/
theorem strIncludes_loadFailMsg (q : String) (l : List String) (e : String) (h : q ∈ l) :
    strIncludes q (loadFailMsg l e) := by
  have h1 : strIncludes q (pyListRepr l) :=
    strIncludes_of_middle q "[" (pyReprItems l) "]" (strIncludes_pyReprItems q l h)
  have h2 : loadFailMsg l e =
      "无法加载模型: attempted paths: " ++ pyListRepr l ++ (". Exception: " ++ e) := by
    simp [loadFailMsg, String.append_assoc]
  rw [h2]
  exact strIncludes_of_middle q _ _ _ h1

/-- C10: supplying `--model` with an empty string behaves exactly as omitting
the flag: the empty explicit path is never attempted or recorded, and the
default candidate-filename search runs instead — the resolver returns the very
same (path, tried) pair. -/
theorem c10_empty_model_flag_like_omitted (env : Env) (fs : String → Bool) :
    prepare_model_path env fs (some "") = prepare_model_path env fs none := rfl

/-- C2: when the positional CSV path does not exist, the run exits 2, writes a
single error envelope to stderr whose error field contains the literal CSV
path, and writes nothing to stdout. -/
theorem c2_missing_csv (w : World) (csv : String)
    (harg : w.csvArg = some csv) (hex : w.fs csv = false) :
    run_main w = ⟨2, none, some (Envelope.err (csvNotFoundMsg csv)), false⟩ ∧
      strIncludes csv (csvNotFoundMsg csv) := by
  constructor
  · simp [run_main, harg, hex]
  · exact ⟨("输入 CSV 未找到: " : String).data, [], by simp [csvNotFoundMsg, data_append]⟩

/-- Witness for C2 at a concrete world whose filesystem is empty. -/
theorem c2_missing_csv_witness :
    run_main ⟨⟨none, none, none, "/w"⟩, fun _ => false, some "in.csv", none,
        Except.ok [], fun _ => Except.error "eof"⟩ =
      ⟨2, none, some (Envelope.err (csvNotFoundMsg "in.csv")), false⟩ ∧
      strIncludes "in.csv" (csvNotFoundMsg "in.csv") :=
  c2_missing_csv
    ⟨⟨none, none, none, "/w"⟩, fun _ => false, some "in.csv", none,
      Except.ok [], fun _ => Except.error "eof"⟩ "in.csv" rfl rfl

/-- C3: a CSV that exists but has zero rows after dropping incomplete rows
makes the run exit 2 with the validation error envelope on stderr; the result
is identical for every unpickler, so no model load or prediction is ever
attempted. -/
theorem c3_empty_after_dropna (w : World) (csv : String)
    (rows : List (List (Option Int)))
    (harg : w.csvArg = some csv) (hex : w.fs csv = true)
    (hread : w.csvRead = Except.ok rows) (hdrop : dropna rows = []) :
    run_main w = ⟨2, none, some (Envelope.err "No rows after dropna()"), false⟩ ∧
      ∀ u, run_main { w with unpickle := u } =
        ⟨2, none, some (Envelope.err "No rows after dropna()"), false⟩ := by
  constructor
  · simp [run_main, harg, hex, hread, hdrop]
  · intro u
    simp [run_main, harg, hex, hread, hdrop]

/-- Witness for C3: a one-row CSV whose only row has a missing value. -/
theorem c3_empty_after_dropna_witness :
    run_main ⟨⟨none, none, none, "/w"⟩, fun s => s == "in.csv", some "in.csv", none,
        Except.ok [[some 1, none]], fun _ => Except.error "eof"⟩ =
      ⟨2, none, some (Envelope.err "No rows after dropna()"), false⟩ ∧
      ∀ u, run_main { (⟨⟨none, none, none, "/w"⟩, fun s => s == "in.csv", some "in.csv", none,
        Except.ok [[some 1, none]], fun _ => Except.error "eof"⟩ : World) with unpickle := u } =
        ⟨2, none, some (Envelope.err "No rows after dropna()"), false⟩ :=
  c3_empty_after_dropna
    ⟨⟨none, none, none, "/w"⟩, fun s => s == "in.csv", some "in.csv", none,
      Except.ok [[some 1, none]], fun _ => Except.error "eof"⟩
    "in.csv" [[some 1, none]] rfl rfl rfl rfl

/-- C8: when the parser rejects the command line (missing positional CSV
argument), the run exits with the parser's own nonzero code (2) before any
main logic, writing its usage text rather than a JSON envelope: no envelope
appears on either stream, because `SystemExit` is not caught by the
`except Exception` handler. -/
theorem c8_argparse_failure_no_envelope (w : World) (harg : w.csvArg = none) :
    run_main w = ⟨2, none, none, true⟩ := by
  simp [run_main, harg]

/-- Witness for C8 at a concrete world with no positional argument. -/
theorem c8_argparse_failure_no_envelope_witness :
    run_main ⟨⟨none, none, none, "/w"⟩, fun _ => false, none, none,
        Except.ok [], fun _ => Except.error "eof"⟩ = ⟨2, none, none, true⟩ :=
  c8_argparse_failure_no_envelope
    ⟨⟨none, none, none, "/w"⟩, fun _ => false, none, none,
      Except.ok [], fun _ => Except.error "eof"⟩ rfl

/-- C9: the two streams are never mixed.  Every run is exactly one of: a
success envelope on stdout with exit 0 and an empty stderr, an error envelope
on stderr with exit 2 and an empty stdout, or the argparse usage exit 2 with
no envelope at all; no run writes to both streams. -/
theorem c9_streams_never_mixed (w : World) :
    (∃ l, run_main w = ⟨0, some (Envelope.ok l), none, false⟩) ∨
    (∃ m, run_main w = ⟨2, none, some (Envelope.err m), false⟩) ∨
    run_main w = ⟨2, none, none, true⟩ := by
  simp only [run_main]
  split
  · exact Or.inr (Or.inr rfl)
  · split
    · split
      · exact Or.inr (Or.inl ⟨_, rfl⟩)
      · split
        · exact Or.inr (Or.inl ⟨_, rfl⟩)
        · split
          · exact Or.inr (Or.inl ⟨_, rfl⟩)
          · split
            · exact Or.inr (Or.inl ⟨_, rfl⟩)
            · split
              · exact Or.inr (Or.inl ⟨_, rfl⟩)
              · split
                · exact Or.inr (Or.inl ⟨_, rfl⟩)
                · exact Or.inl ⟨_, rfl⟩
    · exact Or.inr (Or.inl ⟨_, rfl⟩)

/-- C1: with an existing CSV, at least one complete row, a model that loads
from the resolved path, and a first predicted class code of 0 or 1, the run
exits 0 and stdout carries the single success envelope whose label is "BPA"
for code 0 and "UPA" for code 1 (stderr stays empty). -/
theorem c1_success_path (w : World) (csv : String)
    (rows : List (List (Option Int))) (model : Model) (preds : List Int) (c : Int)
    (harg : w.csvArg = some csv) (hex : w.fs csv = true)
    (hread : w.csvRead = Except.ok rows) (hdrop : dropna rows ≠ [])
    (hload : load_model_from_path w.fs w.unpickle
      (prepare_model_path w.env w.fs w.modelArg).1 = Except.ok model)
    (hpred : model.predict (dropna rows) = Except.ok preds)
    (hhead : preds.head? = some c) (hc : c = 0 ∨ c = 1) :
    run_main w = ⟨0, some (Envelope.ok (if c = 0 then "BPA" else "UPA")), none, false⟩ := by
  have hlen : ¬ (dropna rows).length = 0 := by
    simpa [List.length_eq_zero] using hdrop
  have hmap : mapping c = some (if c = 0 then "BPA" else "UPA") := by
    rcases hc with rfl | rfl <;> simp [mapping]
  simp [run_main, harg, hex, hread, hlen, hload, hpred, hhead, hmap]

/-- Witness for C1: a concrete world whose model predicts class 0. -/
theorem c1_success_path_witness :
    run_main ⟨⟨some "/app", none, none, "/app"⟩,
        fun s => s == "in.csv" || s == "/app/model/RF_binary_v1.pickle",
        some "in.csv", none, Except.ok [[some 1]],
        fun _ => Except.ok ⟨fun _ => Except.ok [0, 1]⟩⟩ =
      ⟨0, some (Envelope.ok (if (0 : Int) = 0 then "BPA" else "UPA")), none, false⟩ :=
  c1_success_path
    ⟨⟨some "/app", none, none, "/app"⟩,
      fun s => s == "in.csv" || s == "/app/model/RF_binary_v1.pickle",
      some "in.csv", none, Except.ok [[some 1]],
      fun _ => Except.ok ⟨fun _ => Except.ok [0, 1]⟩⟩
    "in.csv" [[some 1]] ⟨fun _ => Except.ok [0, 1]⟩ [0, 1] 0
    rfl rfl rfl (by decide) rfl rfl rfl (Or.inl rfl)

/-- When a truthy `_MEIPASS` is not already among the earlier directories it
becomes the head of the candidate directory list. -/
theorem candidate_dirs_meipass_head (env : Env) (m : String)
    (hm : env.meipass = some m) (hne : m ≠ "") (hpre : m ∉ base_dirs env) :
    ∃ rest, candidate_dirs env = m :: rest := by
  have hw : with_meipass env (base_dirs env) = m :: base_dirs env := by
    unfold with_meipass
    rw [hm]
    simp [hne, hpre]
  unfold candidate_dirs
  rw [hw]
  by_cases hcwd : env.cwd ∈ m :: base_dirs env
  · exact ⟨base_dirs env, by simp [hcwd]⟩
  · exact ⟨base_dirs env ++ [env.cwd], by simp [hcwd]⟩

/-- If some default name exists in directory `d`, the per-directory search
returns a default-named file of `d`. -/
theorem findName_defaults_hit (fs : String → Bool) (d n1 : String)
    (hn1 : n1 ∈ default_candidates) (h1 : fs (joinpath d n1) = true) :
    ∃ n ∈ default_candidates, findName fs d default_candidates = some (joinpath d n) := by
  by_cases h0 : fs (joinpath d "model/RF_binary_v1.pickle")
  · exact ⟨"model/RF_binary_v1.pickle", by simp [default_candidates],
      by simp [findName, default_candidates, h0]⟩
  · have hn : n1 = "RF_binary_v1.pickle" := by
      have := (by simpa [default_candidates] using hn1 :
        n1 = "model/RF_binary_v1.pickle" ∨ n1 = "RF_binary_v1.pickle")
      rcases this with rfl | rfl
      · exact absurd h1 (by simpa using h0)
      · rfl
    subst hn
    exact ⟨"RF_binary_v1.pickle", by simp [default_candidates],
      by simp [findName, default_candidates, h0, h1]⟩

/-- C5: when the frozen-bundle extraction directory (`_MEIPASS`) is exposed
and not already among the earlier candidates, it heads the candidate
directory list, and with both the bundle directory and the script directory
holding a default-named model file, default-flow resolution returns the
bundle directory's copy. -/
theorem c5_bundle_dir_precedence (env : Env) (fs : String → Bool) (m d n1 n2 : String)
    (hm : env.meipass = some m) (hne : m ≠ "") (hpre : m ∉ base_dirs env)
    (hd : env.fileDir = some d)
    (hn1 : n1 ∈ default_candidates) (h1 : fs (joinpath m n1) = true)
    (hn2 : n2 ∈ default_candidates) (h2 : fs (joinpath d n2) = true) :
    (candidate_dirs env).head? = some m ∧
      ∃ n ∈ default_candidates, (prepare_model_path env fs none).1 = joinpath m n := by
  obtain ⟨rest, hrest⟩ := candidate_dirs_meipass_head env m hm hne hpre
  constructor
  · rw [hrest]; rfl
  · obtain ⟨n, hn, hfind⟩ := findName_defaults_hit fs m n1 hn1 h1
    refine ⟨n, hn, ?_⟩
    have hfm : find_model_file env fs default_candidates = some (joinpath m n) := by
      unfold find_model_file
      rw [hrest]
      unfold findInDirs
      rw [hfind]
    simp [prepare_model_path, hfm]

/-- Witness for C5: bundle dir `/mei` and script dir `/app` both hold the
first default model name; resolution picks the `/mei` copy. -/
theorem c5_bundle_dir_precedence_witness :
    (candidate_dirs ⟨some "/app", none, some "/mei", "/cwd"⟩).head? = some "/mei" ∧
      ∃ n ∈ default_candidates,
        (prepare_model_path ⟨some "/app", none, some "/mei", "/cwd"⟩
          (fun s => s == "/mei/model/RF_binary_v1.pickle" ||
            s == "/app/model/RF_binary_v1.pickle") none).1 = joinpath "/mei" n :=
  c5_bundle_dir_precedence ⟨some "/app", none, some "/mei", "/cwd"⟩
    (fun s => s == "/mei/model/RF_binary_v1.pickle" ||
      s == "/app/model/RF_binary_v1.pickle")
    "/mei" "/app" "model/RF_binary_v1.pickle" "model/RF_binary_v1.pickle"
    rfl (by decide) (by decide) rfl (by decide) (by decide) (by decide) (by decide)

/-- C6 (code bug): the claim that path resolution never raises is the spec's
evident intent — `candidate_dirs` wraps its three other reads in `try/except`
precisely to swallow resolution failures — but the `Path.cwd()` call is
unguarded, so when the working directory cannot be read the resolver raises
instead of returning a (path, tried) pair.  At the failing input (cwd read
raises, explicit model absent from the filesystem) `prepare_model_path_sys`
propagates the exception; the same invocation with a readable cwd, and the
one flow that never reaches `candidate_dirs()` (a truthy cli path existing as
given), do return pairs. -/
theorem c6_cwd_raise_escapes_resolver :
    prepare_model_path_sys ⟨some "/app", none, none, none⟩ (fun _ => false) (some "m.pkl") =
      Except.error cwdRaiseMsg ∧
    prepare_model_path_sys ⟨some "/app", none, none, none⟩ (fun _ => false) none =
      Except.error cwdRaiseMsg ∧
    prepare_model_path_sys ⟨some "/app", none, none, none⟩ (fun s => s == "m.pkl")
      (some "m.pkl") = Except.ok ("m.pkl", ["m.pkl"]) ∧
    prepare_model_path_sys ⟨some "/app", none, none, some "/w"⟩ (fun _ => false)
      (some "m.pkl") =
      Except.ok (prepare_model_path ⟨some "/app", none, none, "/w"⟩ (fun _ => false)
        (some "m.pkl")) :=
  ⟨rfl, rfl, rfl, rfl⟩

/-- When the cli path exists in no candidate directory, the explicit loop
fails and records a join per directory, in order. -/
theorem try_cli_bases_all_fail (fs : String → Bool) (m : String) :
    ∀ (dirs acc : List String), (∀ d ∈ dirs, fs (joinpath d m) = false) →
      try_cli_bases fs m acc dirs = (none, acc ++ dirs.map (fun d => joinpath d m))
  | [], acc, _ => by simp [try_cli_bases]
  | b :: rest, acc, h => by
    have hb : fs (joinpath b m) = false := h b (by simp)
    have ih := try_cli_bases_all_fail fs m rest (acc ++ [joinpath b m])
      (fun d hd => h d (by simp [hd]))
    simp [try_cli_bases, hb, ih]

/-- When no candidate name exists in directory `d`, the name loop fails. -/
theorem findName_all_fail (fs : String → Bool) (d : String) :
    ∀ names : List String, (∀ n ∈ names, fs (joinpath d n) = false) →
      findName fs d names = none
  | [], _ => rfl
  | n :: rest, h => by
    simp [findName, h n (by simp),
      findName_all_fail fs d rest (fun x hx => h x (by simp [hx]))]

/-- When no directory × name combination exists, the directory loop fails. -/
theorem findInDirs_all_fail (fs : String → Bool) (names : List String) :
    ∀ dirs : List String, (∀ d ∈ dirs, ∀ n ∈ names, fs (joinpath d n) = false) →
      findInDirs fs names dirs = none
  | [], _ => rfl
  | d :: rest, h => by
    simp [findInDirs, findName_all_fail fs d names (h d (by simp)),
      findInDirs_all_fail fs names rest (fun x hx => h x (by simp [hx]))]

/-- With an explicit cli path found nowhere and no default available either,
the resolver returns the first default name literally, together with every
attempted path: the cli path as given, each join to a candidate directory,
and every directory × default-name combination. -/
theorem prepare_model_path_all_fail (env : Env) (fs : String → Bool) (m : String)
    (hne : m ≠ "") (hm0 : fs m = false)
    (hjoin : ∀ d ∈ candidate_dirs env, fs (joinpath d m) = false)
    (hdef : ∀ d ∈ candidate_dirs env, ∀ n ∈ default_candidates, fs (joinpath d n) = false) :
    prepare_model_path env fs (some m) =
      ("model/RF_binary_v1.pickle",
        m :: ((candidate_dirs env).map (fun d => joinpath d m) ++ all_default_tries env)) := by
  have h1 := try_cli_bases_all_fail fs m (candidate_dirs env) [m] hjoin
  have h2 : find_model_file env fs default_candidates = none :=
    findInDirs_all_fail fs default_candidates (candidate_dirs env) hdef
  simp [prepare_model_path, hne, hm0, h1, h2]

/-- C4: with an otherwise valid invocation whose `--model` override exists
nowhere and with no default candidate present in any candidate directory (nor
as a bare relative path), the attempted-path list is non-empty, the run exits
2, and the stderr error message contains every attempted path verbatim. -/
theorem c4_all_attempts_reported (w : World) (csv m : String)
    (rows : List (List (Option Int)))
    (harg : w.csvArg = some csv) (hex : w.fs csv = true)
    (hread : w.csvRead = Except.ok rows) (hdrop : dropna rows ≠ [])
    (hmarg : w.modelArg = some m) (hne : m ≠ "") (hm0 : w.fs m = false)
    (hjoin : ∀ d ∈ candidate_dirs w.env, w.fs (joinpath d m) = false)
    (hdef : ∀ d ∈ candidate_dirs w.env, ∀ n ∈ default_candidates, w.fs (joinpath d n) = false)
    (hlit : w.fs "model/RF_binary_v1.pickle" = false) :
    (prepare_model_path w.env w.fs w.modelArg).2 ≠ [] ∧
      run_main w = ⟨2, none, some (Envelope.err (loadFailMsg
        (prepare_model_path w.env w.fs w.modelArg).2
        (modelNotFoundMsg "model/RF_binary_v1.pickle"))), false⟩ ∧
      ∀ q ∈ (prepare_model_path w.env w.fs w.modelArg).2,
        strIncludes q (loadFailMsg (prepare_model_path w.env w.fs w.modelArg).2
          (modelNotFoundMsg "model/RF_binary_v1.pickle")) := by
  have hp : prepare_model_path w.env w.fs w.modelArg =
      ("model/RF_binary_v1.pickle",
        m :: ((candidate_dirs w.env).map (fun d => joinpath d m) ++ all_default_tries w.env)) := by
    rw [hmarg]
    exact prepare_model_path_all_fail w.env w.fs m hne hm0 hjoin hdef
  have hlen : ¬ (dropna rows).length = 0 := by
    simpa [List.length_eq_zero] using hdrop
  refine ⟨by rw [hp]; simp, ?_, ?_⟩
  · simp [run_main, harg, hex, hread, hlen, hp, load_model_from_path, hlit]
  · intro q hq
    exact strIncludes_loadFailMsg q _ _ hq

/-- Witness for C4: an empty filesystem apart from the CSV, explicit model
`/x/m.pkl`, single candidate directory `/a`. -/
theorem c4_all_attempts_reported_witness :
    (prepare_model_path ⟨some "/a", none, none, "/a"⟩ (fun s => s == "in.csv")
        (some "/x/m.pkl")).2 ≠ [] ∧
      run_main ⟨⟨some "/a", none, none, "/a"⟩, fun s => s == "in.csv", some "in.csv",
          some "/x/m.pkl", Except.ok [[some 1]], fun _ => Except.error "eof"⟩ =
        ⟨2, none, some (Envelope.err (loadFailMsg
          (prepare_model_path ⟨some "/a", none, none, "/a"⟩ (fun s => s == "in.csv")
            (some "/x/m.pkl")).2
          (modelNotFoundMsg "model/RF_binary_v1.pickle"))), false⟩ ∧
      ∀ q ∈ (prepare_model_path ⟨some "/a", none, none, "/a"⟩ (fun s => s == "in.csv")
          (some "/x/m.pkl")).2,
        strIncludes q (loadFailMsg
          (prepare_model_path ⟨some "/a", none, none, "/a"⟩ (fun s => s == "in.csv")
            (some "/x/m.pkl")).2
          (modelNotFoundMsg "model/RF_binary_v1.pickle")) :=
  c4_all_attempts_reported
    ⟨⟨some "/a", none, none, "/a"⟩, fun s => s == "in.csv", some "in.csv",
      some "/x/m.pkl", Except.ok [[some 1]], fun _ => Except.error "eof"⟩
    "in.csv" "/x/m.pkl" [[some 1]]
    rfl rfl rfl (by decide) rfl (by decide) rfl (by decide) (by decide) rfl

/-- The paths actually attempted by the explicit phase of
`prepare_model_path`: the cli path as given when it exists, otherwise the cli
path followed by its joins to candidate directories up to (and including) the
first hit, or all of them. -/
def cli_attempts (env : Env) (fs : String → Bool) (m : String) : List String :=
  if fs m then [m] else (try_cli_bases fs m [m] (candidate_dirs env)).2

/-- C7 counterexample: with script dir `/a` (also the cwd) holding the first
default model file, an explicit `--model m.pkl` that exists nowhere is
attempted (as given and joined to `/a`) yet the resolver returns the tried
list `[found]` that omits both attempts: the claim fails when the default
search succeeds after the explicit path fails. -/
theorem c7_counterexample :
    (prepare_model_path ⟨some "/a", none, none, "/a"⟩
        (fun s => s == "/a/model/RF_binary_v1.pickle") (some "m.pkl")).2 =
      ["/a/model/RF_binary_v1.pickle"] ∧
      "m.pkl" ∉ (prepare_model_path ⟨some "/a", none, none, "/a"⟩
        (fun s => s == "/a/model/RF_binary_v1.pickle") (some "m.pkl")).2 ∧
      "/a/m.pkl" ∉ (prepare_model_path ⟨some "/a", none, none, "/a"⟩
        (fun s => s == "/a/model/RF_binary_v1.pickle") (some "m.pkl")).2 := by
  decide

/-- C7 amended: every path attempted during explicit-path resolution appears
in the resolver's returned attempted-paths list whenever resolution succeeds
via the explicit path or fails entirely; when the explicit path is found
nowhere and the default-filename search succeeds, the returned list instead
collapses to the single found default path. -/
theorem c7_attempts_reported_unless_default_hit (env : Env) (fs : String → Bool) (m : String)
    (hne : m ≠ "")
    (h : fs m = true ∨ (try_cli_bases fs m [m] (candidate_dirs env)).1.isSome = true ∨
      find_model_file env fs default_candidates = none) :
    ∀ q ∈ cli_attempts env fs m, q ∈ (prepare_model_path env fs (some m)).2 := by
  by_cases hm0 : fs m
  · intro q hq
    have hq1 : q = m := by simpa [cli_attempts, hm0] using hq
    subst hq1
    simp [prepare_model_path, hne, hm0]
  · intro q hq
    have hq2 : q ∈ (try_cli_bases fs m [m] (candidate_dirs env)).2 := by
      simpa [cli_attempts, hm0] using hq
    rcases htc : try_cli_bases fs m [m] (candidate_dirs env) with ⟨t1, t2⟩
    rw [htc] at hq2
    rcases t1 with _ | p
    · have hfind : find_model_file env fs default_candidates = none := by
        rcases h with h | h | h
        · exact absurd h hm0
        · rw [htc] at h
          exact absurd h (by simp)
        · exact h
      have hgoal : (prepare_model_path env fs (some m)).2 = t2 ++ all_default_tries env := by
        simp [prepare_model_path, hne, hm0, htc, hfind]
      rw [hgoal]
      exact List.mem_append_left _ hq2
    · have hgoal : (prepare_model_path env fs (some m)).2 = t2 := by
        simp [prepare_model_path, hne, hm0, htc]
      rw [hgoal]
      exact hq2

/-- Witness for C7 amended: empty filesystem, one candidate directory; the
cli path as given is attempted and is reported in the returned list. -/
theorem c7_attempts_reported_unless_default_hit_witness :
    "m.pkl" ∈ (prepare_model_path ⟨some "/a", none, none, "/a"⟩ (fun _ => false)
      (some "m.pkl")).2 :=
  c7_attempts_reported_unless_default_hit ⟨some "/a", none, none, "/a"⟩ (fun _ => false)
    "m.pkl" (by decide) (Or.inr (Or.inr (by decide))) "m.pkl" (by decide)
